import Mathlib

/-!
Shallow embedding of the ai-research-sequence lambda sources
(prompt_factory.py and research_sequence_task.py) and verification of
the specification claims about them.

Python dictionaries are embedded as association lists kept in insertion
order; Python exceptions are embedded as an Except error channel
threaded through each translated function in source order. External
network collaborators (the OpenAI chat endpoint and the Exa search
endpoint) are embedded as functions supplied in an environment record,
so that theorems quantify over every possible collaborator behavior.
-/

namespace RSeq

/-- Python runtime values flowing through the translated code: strings,
integers, booleans, None, JSON arrays and JSON objects (objects keep
key insertion order). -/
inductive PyVal where
  | str (s : String)
  | num (n : Int)
  | bool (b : Bool)
  | pyNone
  | arr (xs : List PyVal)
  | obj (kvs : List (String × PyVal))

/-- Python str conversion as used by f-string interpolation. The call
sites only ever interpolate strings and None (see dataSourceOf and the
prompt builders), so container values get a stand-in rendering. -/
def pyStr : PyVal → String
  | .str s => s
  | .num n => toString n
  | .bool b => if b then "True" else "False"
  | .pyNone => "None"
  | .arr _ => "<list>"
  | .obj _ => "<dict>"

/-- Python exception kinds raised by the translated code: ValueError
from get_prompt for an unrecognized name (carrying the name and the
list of valid names, as the source message does), TypeError from
keyword binding, a raised requests failure, json.loads failure,
TypeError from merging a dict with a non-dict, and AttributeError from
calling a dict method on a non-dict. -/
inductive PyErr where
  | unknownTemplate (name : String) (valid : List String)
  | typeErrorKwargs
  | upstreamError
  | jsonDecodeError
  | typeErrorMerge
  | attributeError
deriving DecidableEq

/-- First-some choice on options, used to state dict merge semantics. -/
def optOr {α : Type} : Option α → Option α → Option α
  | some x, _ => some x
  | none, b => b

/-- Lookup in an association list, first binding wins. -/
def pyLookup {β : Type} : List (String × β) → String → Option β
  | [], _ => none
  | kv :: rest, k => if kv.1 = k then some kv.2 else pyLookup rest k

/-- Keys of an association list in order. -/
def keysOf {β : Type} (d : List (String × β)) : List String :=
  d.map Prod.fst

/-- Python dict assignment d[k] = v: an existing key keeps its position
and gets the new value, a new key is appended at the end. -/
def pyDictInsert {β : Type} (d : List (String × β)) (k : String) (v : β) :
    List (String × β) :=
  if k ∈ keysOf d then d.map (fun kv => if kv.1 = k then (k, v) else kv)
  else d ++ [(k, v)]

/-- Python dict union d1 with d2 (the pipe operator): keys of d1 in
their order with values overridden by d2 where present, then the keys
of d2 not in d1, in their order. -/
def pyDictUnion {β : Type} (d1 d2 : List (String × β)) : List (String × β) :=
  d1.map (fun kv =>
    match pyLookup d2 kv.1 with
    | some v => (kv.1, v)
    | none => kv)
  ++ d2.filter (fun kv => (pyLookup d1 kv.1).isNone)

/-- First occurrences of a list in order, later duplicates removed.
This is the key order a Python dict built by repeated assignment has. -/
def firstOcc : List String → List String
  | [] => []
  | c :: rest => c :: (firstOcc rest).filter (fun x => decide (x ≠ c))

/-- Index of the last occurrence of x in the list (meaningful when x is
a member: the position whose assignment survives in a Python dict). -/
def lastIdxIn : List String → String → Nat
  | [], _ => 0
  | _ :: rest, x => if x ∈ rest then lastIdxIn rest x + 1 else 0

/-- Sequential collection of fallible results: the first error wins and
no earlier successes are returned alongside it. This is the observable
behavior of the as_completed loop in parallel_exa_extraction, taking
its input list in future completion order. -/
def exceptMapM {ε α β : Type} (f : α → Except ε β) : List α → Except ε (List β)
  | [] => .ok []
  | a :: rest =>
    match f a with
    | .error e => .error e
    | .ok b =>
      match exceptMapM f rest with
      | .error e => .error e
      | .ok bs => .ok (b :: bs)

/-- Template clarifying_questions_prompt from prompt_factory.py. -/
def clarifying_questions_prompt (market_description : PyVal) : String :=
  "I want to size the market for: " ++ pyStr market_description ++ ".\n\n" ++
  "Before generating the formula, are there any clarifying questions to get additional context needed for a good formula?\n\n" ++
  "These questions should directly inform the formula inputs."

/-- Template formula_brainstorm_prompt from prompt_factory.py. -/
def formula_brainstorm_prompt (market_description : PyVal) : String :=
  "I want to size the market for: " ++ pyStr market_description ++ ".\n\n" ++
  "Please return a JSON with the following fields:\n\n" ++
  "steps: string - A numbered overview of the steps.\n" ++
  "formula: list of strings - Market sizing formulas expressed as strings, excluding explicit adoption/penetration rates.\n" ++
  "clarifications: list of strings - Clarifying questions to consider for the formulas."

/-- Template datasource_prompt from prompt_factory.py. -/
def datasource_prompt (formula : PyVal) : String :=
  "This is the formula which I want to apply for market modeling:\n\n" ++
  pyStr formula ++ "\n\n" ++
  "Create a JSON of all the components of the formula.\n\n" ++
  "For each component, find different sources that can be used to find the data point.\n\n" ++
  "Please return a JSON with the following fields:\n\n" ++
  "components: list of component_data objects\n" ++
  "component_data objects:\n" ++
  "  -- component: name of component\n" ++
  "  -- data_sources: list of data source objects with fields:\n" ++
  "       -- DATA_COMPONENT: component name\n" ++
  "       -- DATA_SOURCE_NAME: name of data source\n" ++
  "       -- DATA_SOURCE_LINK: link to data source\n" ++
  "       -- DATA_SOURCE_OVERVIEW: text description/preview of data source\n" ++
  "       -- DATA_POINT: numeric data value for the component"

/-- Template exa_synthesis_prompt from prompt_factory.py. -/
def exa_synthesis_prompt (text : PyVal) (component : PyVal) : String :=
  "The following text is from a data source:\n" ++ pyStr text ++ "\n\n" ++
  "Please extract a numeric data point for " ++ pyStr component ++ ".\n" ++
  "Then provide a short summary of the text as condensed as possible.\n\n" ++
  "Please return the response in JSON format with the following structure:\n\n" ++
  "DATA_POINT: numeric data point for the component\n" ++
  "DATA_SOURCE_OVERVIEW: a short summary of the text, providing an overview of the information contained in the text."

/-- Template decompose_formula_prompt from prompt_factory.py. -/
def decompose_formula_prompt (formula : PyVal) : String :=
  "I have a market size formula: " ++ pyStr formula ++ "\n\n" ++
  "Decompose the formula into each individual component / data.\n\n" ++
  "Return this as a JSON with the following fields:\n\n" ++
  "components : list of strings, each string is the name of a component."

/-- Names in the router dictionary of PromptFactory.get_prompt, in
declaration order. -/
def routerNames : List String :=
  ["clarifying_questions_prompt", "formula_brainstorm_prompt",
   "datasource_prompt", "exa_synthesis_prompt", "decompose_formula_prompt"]

/-- Required keyword parameters of each routed template, read off the
static method signatures in prompt_factory.py; none for a name not in
the router. -/
def templateParams (name : String) : Option (List String) :=
  if name = "clarifying_questions_prompt" then some ["market_description"]
  else if name = "formula_brainstorm_prompt" then some ["market_description"]
  else if name = "datasource_prompt" then some ["formula"]
  else if name = "exa_synthesis_prompt" then some ["text", "component"]
  else if name = "decompose_formula_prompt" then some ["formula"]
  else none

/-- Python keyword binding for the call router-entry(**kwargs): it
succeeds exactly when every required parameter is supplied and no
unexpected keyword is present; otherwise Python raises TypeError. -/
def kwargsBind (params : List String) (kwargs : List (String × PyVal)) : Bool :=
  params.all (fun p => decide (p ∈ keysOf kwargs)) &&
  (keysOf kwargs).all (fun k => decide (k ∈ params))

/-- Dispatch of a validated keyword set to the matching template body. -/
def applyTemplate (name : String) (kwargs : List (String × PyVal)) : String :=
  let g := fun p => (pyLookup kwargs p).getD PyVal.pyNone
  if name = "clarifying_questions_prompt" then
    clarifying_questions_prompt (g "market_description")
  else if name = "formula_brainstorm_prompt" then
    formula_brainstorm_prompt (g "market_description")
  else if name = "datasource_prompt" then
    datasource_prompt (g "formula")
  else if name = "exa_synthesis_prompt" then
    exa_synthesis_prompt (g "text") (g "component")
  else if name = "decompose_formula_prompt" then
    decompose_formula_prompt (g "formula")
  else ""

/-- PromptFactory.get_prompt: routes a prompt name to its template,
raising ValueError for an unrecognized name (the message carries the
name and the list of valid router keys) and TypeError when the keyword
set does not bind. -/
def get_prompt (name : String) (kwargs : List (String × PyVal)) :
    Except PyErr String :=
  match templateParams name with
  | none => .error (.unknownTemplate name routerNames)
  | some ps =>
    if kwargsBind ps kwargs then .ok (applyTemplate name kwargs)
    else .error .typeErrorKwargs

/-- One Exa citation: the three attributes the code reads via getattr,
each possibly absent on the result object. -/
structure Citation where
  title : Option String
  url : Option String
  text : Option String
deriving DecidableEq

/-- Result of self.exa.answer; the code only reads its citations. -/
structure ExaResult where
  citations : List Citation
deriving DecidableEq

/-- Reply of chat_response with response_json=True, given through its
json.loads outcome: either text that json.loads rejects, or the parsed
JSON value. -/
inductive LLMReply where
  | notJson
  | json (v : PyVal)

/-- External collaborators of one call: the chat endpoint keyed by the
rendered prompt and the search endpoint keyed by the query. An error
value stands for a raised network or non-success-status failure. -/
structure Env where
  chat : String → Except PyErr LLMReply
  search : String → Except PyErr ExaResult

/-- Outcome of json.loads on a reply. -/
def json_loads : LLMReply → Except PyErr PyVal
  | .notJson => .error .jsonDecodeError
  | .json v => .ok v

/-- Conversion of a getattr result (attribute value or None). -/
def optToPy : Option String → PyVal
  | some s => .str s
  | none => .pyNone

/-- The data_source dict built in exa_data_extraction: each mapped key
is always present, holding the citation attribute or None. -/
def dataSourceOf (c : Citation) : List (String × PyVal) :=
  [("DATA_SOURCE_NAME", optToPy c.title),
   ("DATA_SOURCE_LINK", optToPy c.url),
   ("DATA_SOURCE_TEXT", optToPy c.text)]

/-- The get_prompt call in exa_data_extraction, with the text argument
written exactly as in the source: the dict get of DATA_SOURCE_TEXT with
an empty-string default. -/
def synthesisPromptOf (c : Citation) (component : String) :
    Except PyErr String :=
  get_prompt "exa_synthesis_prompt"
    [("text", (pyLookup (dataSourceOf c) "DATA_SOURCE_TEXT").getD (PyVal.str "")),
     ("component", PyVal.str component)]

/-- Python dict union with the parsed synthesis value: merging with a
non-dict raises TypeError. -/
def mergeSynthesis (base : List (String × PyVal)) (v : PyVal) :
    Except PyErr (List (String × PyVal)) :=
  match v with
  | .obj kvs => .ok (pyDictUnion base kvs)
  | _ => .error .typeErrorMerge

/-- exa_data_extraction from research_sequence_task.py: build the
data_source dict, render the synthesis prompt, call the chat endpoint,
parse its reply, and return the component dict unioned with data_source
unioned with the parsed reply. Every raised failure propagates. -/
def exa_data_extraction (env : Env) (cit : Citation) (component : String) :
    Except PyErr (List (String × PyVal)) :=
  match synthesisPromptOf cit component with
  | .error e => .error e
  | .ok prompt =>
    match env.chat prompt with
    | .error e => .error e
    | .ok reply =>
      match json_loads reply with
      | .error e => .error e
      | .ok synthesis_json =>
        mergeSynthesis
          (pyDictUnion [("component", PyVal.str component)] (dataSourceOf cit))
          synthesis_json

/-- parallel_exa_extraction from research_sequence_task.py: one future
per citation, results appended in completion order, and the first
failed future raises out of the collection loop. The completionOrder
argument is the order in which the futures complete, a permutation of
the submitted citation list chosen by the scheduler; theorems quantify
over it. -/
def parallel_exa_extraction (env : Env) (completionOrder : List Citation)
    (component : String) : Except PyErr (List (List (String × PyVal))) :=
  exceptMapM (fun c => exa_data_extraction env c component) completionOrder

/-- run_exa_workflow from research_sequence_task.py: one search call for
the query, then the parallel extraction over the returned citations.
A search failure propagates. -/
def run_exa_workflow (env : Env) (completionOrder : List Citation)
    (query component : String) : Except PyErr (List (List (String × PyVal))) :=
  match env.search query with
  | .error e => .error e
  | .ok _exa_result => parallel_exa_extraction env completionOrder component

/-- Python attribute-call data.get(key, default): only dicts have the
get method, any other receiver raises AttributeError. -/
def pyDataGet (v : PyVal) (key : String) (default : PyVal) :
    Except PyErr PyVal :=
  match v with
  | .obj kvs => .ok ((pyLookup kvs key).getD default)
  | _ => .error .attributeError

/-- get_components_from_formula from research_sequence_task.py: render
the decompose prompt, call the chat endpoint, parse the reply, read the
components key with an empty-list default, and fall back to the empty
list (after a logged warning) when that value is not a list. -/
def get_components_from_formula (env : Env) (formula : String) :
    Except PyErr (List PyVal) :=
  match get_prompt "decompose_formula_prompt" [("formula", PyVal.str formula)] with
  | .error e => .error e
  | .ok prompt =>
    match env.chat prompt with
    | .error e => .error e
    | .ok response =>
      match json_loads response with
      | .error e => .error e
      | .ok data =>
        match pyDataGet data "components" (PyVal.arr []) with
        | .error e => .error e
        | .ok components =>
          match components with
          | .arr xs => .ok xs
          | _ => .ok []

/-- Body of one loop iteration of the sequential batch runner: the
try block stores the workflow result, the except block catches every
exception and stores None instead. The iteration index selects the
state of the external world at that call. -/
def bodyMarker (envs : Nat → Env) (orders : Nat → List Citation) (i : Nat)
    (component : String) : Option (List (List (String × PyVal))) :=
  match run_exa_workflow (envs i) (orders i) component component with
  | .ok df => some df
  | .error _ => none

/-- Loop of run_exa_workflow_for_components_sequential: dict assignment
of each component result or failure marker, in input order. -/
def run_all_go (envs : Nat → Env) (orders : Nat → List Citation) :
    Nat → List (String × Option (List (List (String × PyVal)))) →
    List String → List (String × Option (List (List (String × PyVal))))
  | _, acc, [] => acc
  | i, acc, c :: rest =>
    run_all_go envs orders (i + 1)
      (pyDictInsert acc c (bodyMarker envs orders i c)) rest

/-- run_exa_workflow_for_components_sequential from the source: run the
workflow for each component strictly in order, recording each result
under the component key, substituting None when the workflow raised. -/
def run_exa_workflow_for_components_sequential (envs : Nat → Env)
    (orders : Nat → List Citation) (components : List String) :
    List (String × Option (List (List (String × PyVal)))) :=
  run_all_go envs orders 0 [] components

/-- Citation with every attribute absent. -/
def citNoText : Citation := ⟨none, none, none⟩

/-- Citation with all three attributes present. -/
def cit0 : Citation := ⟨some "T", some "U", some "X"⟩

/-- Citation carrying only a text attribute. -/
def citT : Citation := ⟨none, none, some "t"⟩

/-- Environment whose chat endpoint always answers the empty JSON
object and whose search endpoint returns zero citations. -/
def envEmptyObj : Env := ⟨fun _ => .ok (.json (.obj [])), fun _ => .ok ⟨[]⟩⟩

/-- Environment whose chat endpoint answers with unparseable text. -/
def envNotJson : Env := ⟨fun _ => .ok .notJson, fun _ => .ok ⟨[]⟩⟩

/-- Environment whose chat endpoint answers with the JSON number 42. -/
def envNum : Env := ⟨fun _ => .ok (.json (.num 42)), fun _ => .ok ⟨[]⟩⟩

/-- Environment whose search endpoint fails for the query bad and
returns zero citations otherwise. -/
def envBadGood : Env :=
  ⟨fun _ => .ok (.json (.obj [])),
   fun q => if q = "bad" then .error .upstreamError else .ok ⟨[]⟩⟩

/-- Environment whose chat endpoint always fails upstream and whose
search endpoint returns one citation. -/
def envChatFails : Env :=
  ⟨fun _ => .error .upstreamError, fun _ => .ok ⟨[⟨none, none, some "t"⟩]⟩⟩

/-- Environment whose chat endpoint answers a JSON object that collides
with a mapped citation field. -/
def envOverride : Env :=
  ⟨fun _ => .ok (.json (.obj
      [("DATA_POINT", PyVal.num 5), ("DATA_SOURCE_TEXT", PyVal.str "o")])),
   fun _ => .ok ⟨[]⟩⟩

/-- Lookup distributes over list append, first list wins. -/
theorem pyLookup_append {β : Type} (d e : List (String × β)) (k : String) :
    pyLookup (d ++ e) k = optOr (pyLookup d k) (pyLookup e k) := by
  induction d with
  | nil => simp [pyLookup, optOr]
  | cons kv rest ih =>
    by_cases h : kv.1 = k
    · simp [pyLookup, h, optOr]
    · simp [pyLookup, h, ih]

/-- Lookup misses exactly outside the key list. -/
theorem pyLookup_eq_none {β : Type} :
    ∀ (d : List (String × β)) (k : String), k ∉ keysOf d → pyLookup d k = none := by
  intro d k
  induction d with
  | nil => intro _; rfl
  | cons kv rest ih =>
    intro h
    simp only [keysOf, List.map_cons, List.mem_cons, not_or] at h
    have h1 : kv.1 ≠ k := fun hh => h.1 hh.symm
    simp only [pyLookup, if_neg h1]
    exact ih h.2

/-- Lookup hits inside the key list. -/
theorem pyLookup_isSome_of_mem {β : Type} :
    ∀ (d : List (String × β)) (k : String), k ∈ keysOf d →
      ∃ v, pyLookup d k = some v := by
  intro d k
  induction d with
  | nil => intro h; simp [keysOf] at h
  | cons kv rest ih =>
    intro h
    by_cases h1 : kv.1 = k
    · exact ⟨kv.2, by simp [pyLookup, h1]⟩
    · simp only [keysOf, List.map_cons, List.mem_cons] at h
      rcases h with h | h
      · exact absurd h.symm h1
      · obtain ⟨v, hv⟩ := ih h
        exact ⟨v, by simp [pyLookup, h1, hv]⟩

/-- Lookup after the value-overriding map used by dict assignment. -/
theorem pyLookup_map_update {β : Type} (k : String) (v : β) :
    ∀ (d : List (String × β)) (x : String),
    pyLookup (d.map (fun kv => if kv.1 = k then (k, v) else kv)) x =
      if x = k then (pyLookup d k).map (fun _ => v) else pyLookup d x := by
  intro d
  induction d with
  | nil => intro x; by_cases hx : x = k <;> simp [pyLookup, hx]
  | cons kv rest ih =>
    intro x
    by_cases h1 : kv.1 = k
    · by_cases hx : x = k
      · subst hx
        simp [pyLookup, h1, ih]
      · simp [pyLookup, h1, hx, Ne.symm hx, ih]
    · by_cases hx : x = k
      · subst hx
        simp [pyLookup, h1, ih]
      · simp [pyLookup, h1, hx, ih]

/-- Dict assignment semantics at the level of lookup. -/
theorem pyLookup_pyDictInsert {β : Type} (d : List (String × β)) (k x : String)
    (v : β) :
    pyLookup (pyDictInsert d k v) x = if x = k then some v else pyLookup d x := by
  unfold pyDictInsert
  by_cases hm : k ∈ keysOf d
  · rw [if_pos hm, pyLookup_map_update]
    by_cases hx : x = k
    · subst hx
      obtain ⟨w, hw⟩ := pyLookup_isSome_of_mem d x hm
      simp [hw]
    · simp [hx]
  · rw [if_neg hm, pyLookup_append]
    by_cases hx : x = k
    · subst hx
      simp [pyLookup_eq_none d x hm, pyLookup, optOr]
    · cases hdx : pyLookup d x with
      | some w => simp [optOr, hdx, hx]
      | none => simp [optOr, hdx, hx, pyLookup, Ne.symm hx]

/-- The value-overriding map keeps the key list unchanged. -/
theorem keysOf_map_update {β : Type} (k : String) (v : β) :
    ∀ d : List (String × β),
    keysOf (d.map (fun kv => if kv.1 = k then (k, v) else kv)) = keysOf d := by
  intro d
  induction d with
  | nil => rfl
  | cons kv rest ih =>
    by_cases h1 : kv.1 = k
    · simp [keysOf, List.map_cons, h1] at ih ⊢
      exact ih
    · simp [keysOf, List.map_cons, h1] at ih ⊢
      exact ih

/-- Dict assignment semantics at the level of key order. -/
theorem keysOf_pyDictInsert {β : Type} (d : List (String × β)) (k : String)
    (v : β) :
    keysOf (pyDictInsert d k v) =
      if k ∈ keysOf d then keysOf d else keysOf d ++ [k] := by
  unfold pyDictInsert
  by_cases hm : k ∈ keysOf d
  · rw [if_pos hm, if_pos hm, keysOf_map_update]
  · rw [if_neg hm, if_neg hm]
    simp [keysOf]

/-- Lookup after the overriding map used by dict union. -/
theorem pyLookup_map_union {β : Type} (d2 : List (String × β)) :
    ∀ (d1 : List (String × β)) (x : String),
    pyLookup (d1.map (fun kv =>
        match pyLookup d2 kv.1 with
        | some v => (kv.1, v)
        | none => kv)) x =
      (pyLookup d1 x).map (fun w => (pyLookup d2 x).getD w) := by
  intro d1
  induction d1 with
  | nil => intro x; rfl
  | cons kv rest ih =>
    intro x
    by_cases h1 : kv.1 = x
    · subst h1
      cases h2 : pyLookup d2 kv.1 with
      | some v => simp [pyLookup, h2]
      | none => simp [pyLookup, h2]
    · cases h2 : pyLookup d2 kv.1 with
      | some v => simp [pyLookup, h2, h1, ih]
      | none => simp [pyLookup, h2, h1, ih]

/-- Lookup after the new-keys filter used by dict union. -/
theorem pyLookup_filter_isNone {β : Type} (d1 : List (String × β)) :
    ∀ (d2 : List (String × β)) (x : String),
    pyLookup (d2.filter (fun kv => (pyLookup d1 kv.1).isNone)) x =
      if (pyLookup d1 x).isNone then pyLookup d2 x else none := by
  intro d2
  induction d2 with
  | nil => intro x; by_cases h : (pyLookup d1 x).isNone <;> simp [pyLookup, h]
  | cons kv rest ih =>
    intro x
    by_cases h1 : kv.1 = x
    · subst h1
      cases hk : (pyLookup d1 kv.1).isNone
      · simp [List.filter_cons, hk, pyLookup, ih]
      · simp [List.filter_cons, hk, pyLookup]
    · cases hk : (pyLookup d1 kv.1).isNone
      · simp [List.filter_cons, hk, pyLookup, h1, ih]
      · simp [List.filter_cons, hk, pyLookup, h1, ih]

/-- Python dict union at the level of lookup: the right dict wins. -/
theorem pyLookup_pyDictUnion {β : Type} (d1 d2 : List (String × β)) (x : String) :
    pyLookup (pyDictUnion d1 d2) x = optOr (pyLookup d2 x) (pyLookup d1 x) := by
  unfold pyDictUnion
  rw [pyLookup_append, pyLookup_map_union, pyLookup_filter_isNone]
  cases h1 : pyLookup d1 x <;> cases h2 : pyLookup d2 x <;>
    simp [optOr, h1, h2]

/-- Fallible collection fails with e whenever some element fails with e
and every element either fails with e or succeeds. -/
theorem exceptMapM_error_all {ε α β : Type} (f : α → Except ε β) (e : ε) :
    ∀ l : List α, (∀ a ∈ l, f a = .error e ∨ ∃ b, f a = .ok b) →
    (∃ a ∈ l, f a = .error e) → exceptMapM f l = .error e := by
  intro l
  induction l with
  | nil => intro _ hex; simp at hex
  | cons a rest ih =>
    intro hall hex
    rcases hall a (List.mem_cons_self a rest) with ha | ⟨b, hb⟩
    · simp [exceptMapM, ha]
    · have hrest : ∃ a2 ∈ rest, f a2 = .error e := by
        rcases hex with ⟨a2, ha2mem, ha2⟩
        rcases List.mem_cons.mp ha2mem with rfl | hm
        · rw [hb] at ha2
          exact absurd ha2 (by simp)
        · exact ⟨a2, hm, ha2⟩
      have hr := ih (fun a2 hm => hall a2 (List.mem_cons_of_mem a hm)) hrest
      simp [exceptMapM, hb, hr]

/-- The synthesis prompt of exa_data_extraction always renders, and its
text argument is the text attribute of the citation or None when that
attribute is absent (the empty-string default of the dict get is dead
because the key is always present). -/
theorem synthesisPromptOf_eq (cit : Citation) (component : String) :
    synthesisPromptOf cit component =
      .ok (exa_synthesis_prompt (optToPy cit.text) (PyVal.str component)) := rfl

/-- The decompose prompt of get_components_from_formula always renders. -/
theorem decomposePromptOf_eq (formula : String) :
    get_prompt "decompose_formula_prompt" [("formula", PyVal.str formula)] =
      .ok (decompose_formula_prompt (PyVal.str formula)) := rfl

/-- Lookup in the batch loop result: a member component maps to the
marker of its last iteration, a non-member key is untouched. -/
theorem run_all_go_lookup (envs : Nat → Env) (orders : Nat → List Citation) :
    ∀ (comps : List String) (i : Nat)
      (acc : List (String × Option (List (List (String × PyVal))))) (x : String),
    pyLookup (run_all_go envs orders i acc comps) x =
      if x ∈ comps then some (bodyMarker envs orders (i + lastIdxIn comps x) x)
      else pyLookup acc x := by
  intro comps
  induction comps with
  | nil => intro i acc x; simp [run_all_go]
  | cons c rest ih =>
    intro i acc x
    simp only [run_all_go]
    rw [ih]
    by_cases hr : x ∈ rest
    · rw [if_pos hr, if_pos (List.mem_cons_of_mem c hr)]
      have hl : lastIdxIn (c :: rest) x = lastIdxIn rest x + 1 := by
        simp [lastIdxIn, hr]
      rw [hl]
      have ha : i + 1 + lastIdxIn rest x = i + (lastIdxIn rest x + 1) := by omega
      rw [ha]
    · rw [if_neg hr, pyLookup_pyDictInsert]
      by_cases hx : x = c
      · subst hx
        rw [if_pos rfl, if_pos (List.mem_cons_self x rest)]
        simp [lastIdxIn, hr]
      · rw [if_neg hx, if_neg (by simp [List.mem_cons, hx, hr])]

/-- Key order of the batch loop result: accumulator keys first, then the
first occurrences of the remaining components not already present. -/
theorem run_all_go_keys (envs : Nat → Env) (orders : Nat → List Citation) :
    ∀ (comps : List String) (i : Nat)
      (acc : List (String × Option (List (List (String × PyVal))))),
    keysOf (run_all_go envs orders i acc comps) =
      keysOf acc ++ (firstOcc comps).filter (fun x => decide (x ∉ keysOf acc)) := by
  intro comps
  induction comps with
  | nil => intro i acc; simp [run_all_go, firstOcc]
  | cons c rest ih =>
    intro i acc
    simp only [run_all_go]
    rw [ih]
    simp only [keysOf_pyDictInsert]
    by_cases hm : c ∈ keysOf acc
    · simp only [hm, if_true, firstOcc, List.filter_cons]
      rw [if_neg (by simp [hm]), List.filter_filter]
      congr 1
      apply List.filter_congr
      intro x _
      by_cases hxa : x ∈ keysOf acc
      · simp [hxa]
      · have hxc : x ≠ c := fun h => hxa (h ▸ hm)
        simp [hxa, hxc]
    · simp only [hm, if_false, firstOcc, List.filter_cons]
      rw [if_pos (by simp [hm]), List.filter_filter, List.append_assoc]
      congr 1
      simp only [List.singleton_append]
      congr 1
      apply List.filter_congr
      intro x _
      by_cases hxa : x ∈ keysOf acc
      · simp [List.mem_append, hxa]
      · by_cases hxc : x = c
        · subst hxc
          simp [List.mem_append, hxa]
        · simp [List.mem_append, hxa, hxc]

/-- First occurrences of a duplicate-free list are the list itself. -/
theorem firstOcc_of_nodup :
    ∀ comps : List String, comps.Nodup → firstOcc comps = comps := by
  intro comps
  induction comps with
  | nil => intro _; rfl
  | cons c rest ih =>
    intro h
    rw [List.nodup_cons] at h
    simp only [firstOcc]
    rw [ih h.2, List.filter_eq_self.mpr]
    intro x hx
    simp only [decide_eq_true_eq]
    exact fun hxc => h.1 (hxc ▸ hx)

/-- Claim C1: for every ordered component list, when the workflow run
for some component raises any exception, the sequential batch runner
records a None failure marker under that component key and keeps
processing all other components, while a component whose run succeeds
is recorded with its real result list; the runner itself never raises
(its translation is a total function because the loop body catches
every exception). The workflow outcome of the recorded entry is the one
of the last iteration that processed the component. -/
theorem c1_batch_isolates_failures (envs : Nat → Env)
    (orders : Nat → List Citation) (comps : List String) (c : String)
    (hc : c ∈ comps) :
    (∀ e, run_exa_workflow (envs (lastIdxIn comps c)) (orders (lastIdxIn comps c)) c c
        = .error e →
      pyLookup (run_exa_workflow_for_components_sequential envs orders comps) c
        = some none)
    ∧ (∀ df, run_exa_workflow (envs (lastIdxIn comps c)) (orders (lastIdxIn comps c)) c c
        = .ok df →
      pyLookup (run_exa_workflow_for_components_sequential envs orders comps) c
        = some (some df)) := by
  have h := run_all_go_lookup envs orders comps 0 [] c
  rw [if_pos hc] at h
  simp only [Nat.zero_add] at h
  constructor
  · intro e he
    simp only [run_exa_workflow_for_components_sequential]
    rw [h]
    simp [bodyMarker, he]
  · intro df hdf
    simp only [run_exa_workflow_for_components_sequential]
    rw [h]
    simp [bodyMarker, hdf]

/-- Witness for C1: in a batch where the search for the component bad
fails upstream and the component good succeeds, the batch result maps
bad to the None marker and good to its real (empty) result list. -/
theorem c1_batch_isolates_failures_witness :
    pyLookup (run_exa_workflow_for_components_sequential
        (fun _ => envBadGood) (fun _ => []) ["good", "bad"]) "bad" = some none
    ∧ pyLookup (run_exa_workflow_for_components_sequential
        (fun _ => envBadGood) (fun _ => []) ["good", "bad"]) "good"
        = some (some []) :=
  ⟨(c1_batch_isolates_failures (fun _ => envBadGood) (fun _ => [])
      ["good", "bad"] "bad" (by decide)).1 PyErr.upstreamError rfl,
   (c1_batch_isolates_failures (fun _ => envBadGood) (fun _ => [])
      ["good", "bad"] "good" (by decide)).2 [] rfl⟩

/-- Claim C2: the batch result of the sequential runner is a mapping
whose keys are exactly the input component names in first-occurrence
order, one entry per distinct name; a repeated name holds the result of
its last processing (last write wins); and for duplicate-free input the
keys equal the input list exactly, in order. -/
theorem c2_batch_keys_and_last_write (envs : Nat → Env)
    (orders : Nat → List Citation) (comps : List String) :
    keysOf (run_exa_workflow_for_components_sequential envs orders comps)
      = firstOcc comps
    ∧ (∀ c ∈ comps,
        pyLookup (run_exa_workflow_for_components_sequential envs orders comps) c
          = some (bodyMarker envs orders (lastIdxIn comps c) c))
    ∧ (comps.Nodup →
        keysOf (run_exa_workflow_for_components_sequential envs orders comps)
          = comps) := by
  have hkeys :
      keysOf (run_exa_workflow_for_components_sequential envs orders comps)
        = firstOcc comps := by
    simp only [run_exa_workflow_for_components_sequential]
    rw [run_all_go_keys]
    simp [keysOf, List.filter_eq_self]
  refine ⟨hkeys, ?_, ?_⟩
  · intro c hc
    have h := run_all_go_lookup envs orders comps 0 [] c
    rw [if_pos hc] at h
    simp only [Nat.zero_add] at h
    simp only [run_exa_workflow_for_components_sequential]
    exact h
  · intro hnd
    rw [hkeys]
    exact firstOcc_of_nodup comps hnd

/-- Witness for C2: a batch over the list a, b, a has keys a, b in that
order and maps the repeated name a to the marker of its last run. -/
theorem c2_batch_keys_and_last_write_witness :
    keysOf (run_exa_workflow_for_components_sequential
        (fun _ => envBadGood) (fun _ => []) ["a", "b", "a"]) = ["a", "b"]
    ∧ pyLookup (run_exa_workflow_for_components_sequential
        (fun _ => envBadGood) (fun _ => []) ["a", "b", "a"]) "a"
        = some (some []) := by
  have h := c2_batch_keys_and_last_write (fun _ => envBadGood) (fun _ => [])
    ["a", "b", "a"]
  exact ⟨h.1.trans rfl, (h.2.1 "a" (by decide)).trans rfl⟩

/-- Claim C3: for a component with a non-empty citation set, if the
extraction of some citation raises while every other citation would
succeed, then the component workflow run raises that same failure to
its caller instead of returning any list of already-successful
extractions; no recovery happens below the batch layer. The statement
quantifies over every completion order of the extraction futures. -/
theorem c3_extraction_failure_aborts_component (env : Env)
    (order : List Citation) (query component : String) (ans : ExaResult)
    (c : Citation) (e : PyErr)
    (hs : env.search query = .ok ans)
    (hperm : order.Perm ans.citations)
    (hc : c ∈ ans.citations)
    (he : exa_data_extraction env c component = .error e)
    (hok : ∀ c2 ∈ ans.citations, c2 ≠ c →
      ∃ r, exa_data_extraction env c2 component = .ok r) :
    run_exa_workflow env order query component = .error e := by
  simp only [run_exa_workflow, hs, parallel_exa_extraction]
  apply exceptMapM_error_all
  · intro a ha
    have hmem : a ∈ ans.citations := hperm.mem_iff.mp ha
    by_cases hac : a = c
    · subst hac
      exact Or.inl he
    · obtain ⟨r, hr⟩ := hok a hmem hac
      exact Or.inr ⟨r, hr⟩
  · exact ⟨c, hperm.mem_iff.mpr hc, he⟩

/-- Witness for C3: with one citation whose synthesis chat call fails
upstream, the whole component workflow fails with that error. -/
theorem c3_extraction_failure_aborts_component_witness :
    run_exa_workflow envChatFails [citT] "q" "comp" = .error PyErr.upstreamError := by
  apply c3_extraction_failure_aborts_component envChatFails [citT] "q" "comp"
    ⟨[citT]⟩ citT PyErr.upstreamError rfl (List.Perm.refl _)
    (List.mem_singleton.mpr rfl) rfl
  intro c2 h2 hne
  exact absurd (List.mem_singleton.mp h2) hne

/-- Counterexample to claim C4 as stated: a synthesis reply that is a
JSON object missing both required keys DATA_POINT and
DATA_SOURCE_OVERVIEW does not make exa_data_extraction fail; the code
performs no key validation and returns the merged record without those
keys. -/
theorem c4_counterexample_missing_keys_accepted :
    exa_data_extraction envEmptyObj cit0 "comp" =
      .ok [("component", PyVal.str "comp"),
           ("DATA_SOURCE_NAME", PyVal.str "T"),
           ("DATA_SOURCE_LINK", PyVal.str "U"),
           ("DATA_SOURCE_TEXT", PyVal.str "X")]
    ∧ (∀ e, exa_data_extraction envEmptyObj cit0 "comp" ≠ .error e)
    ∧ pyLookup [("component", PyVal.str "comp"),
           ("DATA_SOURCE_NAME", PyVal.str "T"),
           ("DATA_SOURCE_LINK", PyVal.str "U"),
           ("DATA_SOURCE_TEXT", PyVal.str "X")] "DATA_POINT" = none := by
  have h1 : exa_data_extraction envEmptyObj cit0 "comp" =
      .ok [("component", PyVal.str "comp"),
           ("DATA_SOURCE_NAME", PyVal.str "T"),
           ("DATA_SOURCE_LINK", PyVal.str "U"),
           ("DATA_SOURCE_TEXT", PyVal.str "X")] := rfl
  exact ⟨h1, fun e h => Except.noConfusion (h1.symm.trans h), rfl⟩

/-- Claim C4 as amended: exa_data_extraction parses the synthesis reply
with json.loads and fails, propagating to the caller, when the reply is
not parseable JSON (json decode error) or parses to a non-object (type
error on the dict merge); a JSON object missing DATA_POINT or
DATA_SOURCE_OVERVIEW is not rejected, the merge simply happens without
those keys. -/
theorem c4_reply_validation_amended (env : Env) (cit : Citation)
    (component : String) :
    (env.chat (exa_synthesis_prompt (optToPy cit.text) (PyVal.str component))
        = .ok LLMReply.notJson →
      exa_data_extraction env cit component = .error PyErr.jsonDecodeError)
    ∧ (∀ v, env.chat (exa_synthesis_prompt (optToPy cit.text) (PyVal.str component))
        = .ok (LLMReply.json v) → (∀ kvs, v ≠ PyVal.obj kvs) →
      exa_data_extraction env cit component = .error PyErr.typeErrorMerge)
    ∧ (∀ kvs, env.chat (exa_synthesis_prompt (optToPy cit.text) (PyVal.str component))
        = .ok (LLMReply.json (PyVal.obj kvs)) →
      exa_data_extraction env cit component =
        .ok (pyDictUnion
          (pyDictUnion [("component", PyVal.str component)] (dataSourceOf cit))
          kvs)) := by
  refine ⟨?_, ?_, ?_⟩
  · intro h
    simp [exa_data_extraction, synthesisPromptOf_eq, h, json_loads]
  · intro v h hv
    simp only [exa_data_extraction, synthesisPromptOf_eq, h, json_loads]
    cases v with
    | obj kvs => exact absurd rfl (hv kvs)
    | str s => rfl
    | num n => rfl
    | bool b => rfl
    | pyNone => rfl
    | arr xs => rfl
  · intro kvs h
    simp [exa_data_extraction, synthesisPromptOf_eq, h, json_loads, mergeSynthesis]

/-- Witness for the amended C4: an unparseable reply makes the
extraction fail with the json decode error. -/
theorem c4_reply_validation_amended_witness :
    exa_data_extraction envNotJson cit0 "comp" = .error PyErr.jsonDecodeError :=
  (c4_reply_validation_amended envNotJson cit0 "comp").1 rfl

/-- Claim C5: on success the record returned by exa_data_extraction is
exactly the union of the singleton component dict, then the mapped
citation fields, then the parsed reply, and at every key the parsed
reply overrides the mapped citation fields, which override the
component entry. -/
theorem c5_record_is_merge (env : Env) (cit : Citation) (component : String)
    (kvs : List (String × PyVal))
    (hchat : env.chat (exa_synthesis_prompt (optToPy cit.text) (PyVal.str component))
      = .ok (LLMReply.json (PyVal.obj kvs))) :
    exa_data_extraction env cit component =
      .ok (pyDictUnion
        (pyDictUnion [("component", PyVal.str component)] (dataSourceOf cit))
        kvs)
    ∧ ∀ k, pyLookup (pyDictUnion
        (pyDictUnion [("component", PyVal.str component)] (dataSourceOf cit))
        kvs) k =
      optOr (pyLookup kvs k)
        (optOr (pyLookup (dataSourceOf cit) k)
          (pyLookup [("component", PyVal.str component)] k)) := by
  constructor
  · simp [exa_data_extraction, synthesisPromptOf_eq, hchat, json_loads,
      mergeSynthesis]
  · intro k
    rw [pyLookup_pyDictUnion, pyLookup_pyDictUnion]

/-- Witness for C5: a reply key colliding with a mapped citation field
overrides it in the returned record. -/
theorem c5_record_is_merge_witness :
    exa_data_extraction envOverride cit0 "c" =
      .ok (pyDictUnion
        (pyDictUnion [("component", PyVal.str "c")] (dataSourceOf cit0))
        [("DATA_POINT", PyVal.num 5), ("DATA_SOURCE_TEXT", PyVal.str "o")])
    ∧ pyLookup (pyDictUnion
        (pyDictUnion [("component", PyVal.str "c")] (dataSourceOf cit0))
        [("DATA_POINT", PyVal.num 5), ("DATA_SOURCE_TEXT", PyVal.str "o")])
        "DATA_SOURCE_TEXT" = some (PyVal.str "o") :=
  ⟨(c5_record_is_merge envOverride cit0 "c"
      [("DATA_POINT", PyVal.num 5), ("DATA_SOURCE_TEXT", PyVal.str "o")] rfl).1,
   ((c5_record_is_merge envOverride cit0 "c"
      [("DATA_POINT", PyVal.num 5), ("DATA_SOURCE_TEXT", PyVal.str "o")] rfl).2
      "DATA_SOURCE_TEXT").trans rfl⟩

/-- Claim C6: when the search call returns zero citations, the
component workflow run returns an empty sequence and raises nothing. -/
theorem c6_zero_citations_empty (env : Env) (order : List Citation)
    (query component : String) (ans : ExaResult)
    (hs : env.search query = .ok ans) (hz : ans.citations = [])
    (hperm : order.Perm ans.citations) :
    run_exa_workflow env order query component = .ok [] := by
  have horder : order = [] := by
    rw [hz] at hperm
    exact List.perm_nil.mp hperm
  subst horder
  simp [run_exa_workflow, hs, parallel_exa_extraction, exceptMapM]

/-- Witness for C6: a search with zero citations yields the empty result
list. -/
theorem c6_zero_citations_empty_witness :
    run_exa_workflow envEmptyObj [] "q" "c" = .ok [] :=
  c6_zero_citations_empty envEmptyObj [] "q" "c" ⟨[]⟩ rfl rfl (List.Perm.refl _)

/-- Claim C7, demonstrating the code slip: for a citation with an
absent text attribute, the dict get with an empty-string default is
dead (the key is always present and holds None), so the synthesis
prompt is rendered with the text argument None, not the empty string,
and the rendered prompt differs from the one claimed. -/
theorem c7_absent_text_renders_none :
    (pyLookup (dataSourceOf citNoText) "DATA_SOURCE_TEXT").getD (PyVal.str "")
      = PyVal.pyNone
    ∧ synthesisPromptOf citNoText "C"
      = .ok (exa_synthesis_prompt PyVal.pyNone (PyVal.str "C"))
    ∧ exa_synthesis_prompt PyVal.pyNone (PyVal.str "C") ≠
        exa_synthesis_prompt (PyVal.str "") (PyVal.str "C") := by
  refine ⟨rfl, rfl, ?_⟩
  decide

/-- Claim C8: get_prompt with an unrecognized name always fails with
the ValueError kind whose payload names the unrecognized name and lists
the valid router names, never with any other error kind, for every
argument set. -/
theorem c8_unknown_template_valueerror (name : String)
    (kwargs : List (String × PyVal)) (h : name ∉ routerNames) :
    get_prompt name kwargs = .error (PyErr.unknownTemplate name routerNames) := by
  have hp : templateParams name = none := by
    simp only [routerNames, List.mem_cons, List.mem_singleton, not_or] at h
    obtain ⟨h1, h2, h3, h4, h5⟩ := h
    simp [templateParams, h1, h2, h3, h4, h5]
  simp [get_prompt, hp]

/-- Witness for C8: an unknown name fails with the ValueError kind. -/
theorem c8_unknown_template_valueerror_witness :
    get_prompt "nope" [] = .error (PyErr.unknownTemplate "nope" routerNames) :=
  c8_unknown_template_valueerror "nope" [] (by decide)

/-- Claim C9: for every recognized template name, rendering with
exactly the required named arguments (in any order) and no others
succeeds and returns a string, while omitting any required argument
fails deterministically with the TypeError kind instead of silently
substituting a blank. -/
theorem c9_template_arg_binding (name : String) (ps : List String)
    (kwargs : List (String × PyVal)) (hname : templateParams name = some ps) :
    ((keysOf kwargs).Perm ps → ∃ s, get_prompt name kwargs = .ok s)
    ∧ ((∃ p, p ∈ ps ∧ p ∉ keysOf kwargs) →
        get_prompt name kwargs = .error PyErr.typeErrorKwargs) := by
  constructor
  · intro hperm
    refine ⟨applyTemplate name kwargs, ?_⟩
    simp only [get_prompt, hname]
    rw [if_pos]
    simp only [kwargsBind, Bool.and_eq_true, List.all_eq_true, decide_eq_true_eq]
    constructor
    · intro p hp
      exact hperm.mem_iff.mpr hp
    · intro k hk
      exact hperm.mem_iff.mp hk
  · rintro ⟨p, hp, hnp⟩
    have hbind : ¬ (kwargsBind ps kwargs = true) := by
      simp only [kwargsBind, Bool.and_eq_true, List.all_eq_true, decide_eq_true_eq]
      rintro ⟨hall, _⟩
      exact hnp (hall p hp)
    simp [get_prompt, hname, if_neg hbind]

/-- Witness for C9: the synthesis template renders with exactly its two
required arguments and fails with TypeError when component is omitted. -/
theorem c9_template_arg_binding_witness :
    (∃ s, get_prompt "exa_synthesis_prompt"
        [("text", PyVal.str "t"), ("component", PyVal.str "c")] = .ok s)
    ∧ get_prompt "exa_synthesis_prompt" [("text", PyVal.str "t")] =
        .error PyErr.typeErrorKwargs :=
  ⟨(c9_template_arg_binding "exa_synthesis_prompt" ["text", "component"]
      [("text", PyVal.str "t"), ("component", PyVal.str "c")] rfl).1 (by decide),
   (c9_template_arg_binding "exa_synthesis_prompt" ["text", "component"]
      [("text", PyVal.str "t")] rfl).2 ⟨"component", by decide, by decide⟩⟩

/-- Counterexample to claim C10 as stated: a decompose reply that is
parseable JSON but not an object (here the number 42) makes
get_components_from_formula raise (AttributeError on the dict get),
even though the reply parsed and the upstream call succeeded. -/
theorem c10_counterexample_nonobject_raises :
    envNum.chat (decompose_formula_prompt (PyVal.str "f"))
      = .ok (LLMReply.json (PyVal.num 42))
    ∧ get_components_from_formula envNum "f" = .error PyErr.attributeError :=
  ⟨rfl, rfl⟩

/-- Claim C10 as amended: when the decompose reply parses as a JSON
object whose components value is missing or not a list,
get_components_from_formula returns the empty list after a logged
warning rather than raising, and a present list value is returned as
is; it raises exactly when the reply is not parseable JSON, when the
reply parses to a non-object JSON value, or when the upstream call
fails. -/
theorem c10_components_fallback_amended (env : Env) (formula : String) :
    (∀ kvs, env.chat (decompose_formula_prompt (PyVal.str formula))
        = .ok (LLMReply.json (PyVal.obj kvs)) →
      ((pyLookup kvs "components" = none →
          get_components_from_formula env formula = .ok [])
      ∧ (∀ v, pyLookup kvs "components" = some v → (∀ xs, v ≠ PyVal.arr xs) →
          get_components_from_formula env formula = .ok [])
      ∧ (∀ xs, pyLookup kvs "components" = some (PyVal.arr xs) →
          get_components_from_formula env formula = .ok xs)))
    ∧ (env.chat (decompose_formula_prompt (PyVal.str formula))
        = .ok LLMReply.notJson →
      get_components_from_formula env formula = .error PyErr.jsonDecodeError)
    ∧ (∀ v, env.chat (decompose_formula_prompt (PyVal.str formula))
        = .ok (LLMReply.json v) → (∀ kvs, v ≠ PyVal.obj kvs) →
      get_components_from_formula env formula = .error PyErr.attributeError)
    ∧ (∀ e, env.chat (decompose_formula_prompt (PyVal.str formula)) = .error e →
      get_components_from_formula env formula = .error e) := by
  refine ⟨?_, ?_, ?_, ?_⟩
  · intro kvs h
    refine ⟨?_, ?_, ?_⟩
    · intro hnone
      simp [get_components_from_formula, decomposePromptOf_eq, h, json_loads,
        pyDataGet, hnone]
    · intro v hv hva
      simp only [get_components_from_formula, decomposePromptOf_eq, h,
        json_loads, pyDataGet, hv]
      cases v with
      | arr xs => exact absurd rfl (hva xs)
      | str s => rfl
      | num n => rfl
      | bool b => rfl
      | pyNone => rfl
      | obj kvs2 => rfl
    · intro xs hv
      simp [get_components_from_formula, decomposePromptOf_eq, h, json_loads,
        pyDataGet, hv]
  · intro h
    simp [get_components_from_formula, decomposePromptOf_eq, h, json_loads]
  · intro v h hv
    simp only [get_components_from_formula, decomposePromptOf_eq, h, json_loads]
    cases v with
    | obj kvs => exact absurd rfl (hv kvs)
    | str s => rfl
    | num n => rfl
    | bool b => rfl
    | pyNone => rfl
    | arr xs => rfl
  · intro e h
    simp [get_components_from_formula, decomposePromptOf_eq, h]

/-- Witness for the amended C10: a JSON object reply with no components
key yields the empty component list. -/
theorem c10_components_fallback_amended_witness :
    get_components_from_formula envEmptyObj "f" = .ok [] :=
  (((c10_components_fallback_amended envEmptyObj "f").1 [] rfl).1) rfl

end RSeq
